import Mathlib

/-!
Verification of the Jeju DWS node-provisioning and service-registry layer.

The development shallowly embeds the relevant parts of the repository:

- `EQLiteNodeService.createDatabase`, the heartbeat loop and `stopNode`
  from apps/dws/api/infrastructure/eqlite-node-service.ts;
- the chain-provisioning configuration table `CHAIN_CONFIGS` and
  `deployDWSNode` from the external-chain provisioning script;
- the DWS Node Registry / Stateful Provisioner / Service Discovery layer,
  whose implementation modules (stateful-provisioner, discovery,
  node-registry) are only re-exported here, modelled from the spec.

Machine integers are modelled by Nat; fallible code returns Except;
effectful code is modelled by explicit state passing plus an explicit
trace of the on-chain transactions it issues.
-/

namespace Jeju

-- ===========================================================================
-- Part 1: EQLite node service (apps/dws/api/infrastructure/eqlite-node-service.ts)
-- ===========================================================================

/-- A bytes32 identifier (node id, database id) modelled as a natural. -/
abbrev Hex := Nat

/-- An on-chain transaction issued through the wallet client.  Only the
registry function name and its miner-list argument matter to the claims. -/
structure OnChainTx where
  functionName : String
  minerNodeIds : List Hex
deriving DecidableEq, Repr

/-- Outcome of `EQLiteNodeService.createDatabase`: the returned value (or
thrown error), the miners that were selected, and the trace of on-chain
transactions issued during the call. -/
structure CreateDbOutcome where
  result : Except String Hex
  selectedMiners : List Hex
  issuedTxs : List OnChainTx
deriving Repr

/-- Shallow embedding of `EQLiteNodeService.createDatabase`.  The active
miner list is the value returned by the on-chain `getActiveMiners` call
(in registration order); `databaseId` abstracts the keccak-derived fresh
id.  The source checks capacity first and throws before issuing any
transaction; otherwise it takes the first `nodeCount` miners
(`activeMiners.slice(0, params.nodeCount)`) and issues one
`createDatabase` transaction. -/
def EQLiteNodeService.createDatabase (activeMiners : List Hex) (databaseId : Hex)
    (nodeCount : Nat) : CreateDbOutcome :=
  if activeMiners.length < nodeCount then
    { result := Except.error
        ("Not enough active miners: need " ++ toString nodeCount ++
          ", have " ++ toString activeMiners.length)
      selectedMiners := []
      issuedTxs := [] }
  else
    let selectedMiners := activeMiners.take nodeCount
    { result := Except.ok databaseId
      selectedMiners := selectedMiners
      issuedTxs := [{ functionName := "createDatabase", minerNodeIds := selectedMiners }] }

/-- Node status of the EQLite node manager (from @jejunetwork/db). -/
inductive EQLiteNodeStatus
  | STARTING
  | RUNNING
  | STOPPED
  | ERROR
deriving DecidableEq, Repr

/-- The slice of the node-manager state read by the heartbeat loop. -/
structure NodeManagerState where
  status : EQLiteNodeStatus
deriving DecidableEq, Repr

/-- The mutable fields of `EQLiteNodeService` that the heartbeat loop and
`stopNode` touch.  `dwsAgentId` is `bigint | null` in the source; the
heartbeat loop guards it with a JS truthiness test, so `some 0` behaves
like `null` there. -/
structure EQLiteServiceState where
  nodeManager : Option NodeManagerState
  dwsAgentId : Option Nat
deriving DecidableEq, Repr

/-- Shallow embedding of `EQLiteNodeService.stopNode`: stops the manager
and sets it to null. -/
def EQLiteNodeService.stopNode (s : EQLiteServiceState) : EQLiteServiceState :=
  { s with nodeManager := none }

/-- Result of one tick of the heartbeat interval callback. -/
inductive TickOutcome
  | stopped
  | skipped
  | ran (chainHeartbeatOk : Bool) (dwsHeartbeatAttempted : Bool) (dwsHeartbeatOk : Bool)
deriving DecidableEq, Repr

/-- A fallible network send: models `walletClient.sendTransaction` or
`nodeRegistry.heartbeat`, which may reject. -/
def fallibleSend (fails : Bool) : Except String Unit :=
  if fails then Except.error "send failed" else Except.ok ()

/-- The try/catch wrapper of the source: converts a fallible action into a
logged success flag, never re-throwing. -/
def catchLogged (a : Except String Unit) : Bool :=
  match a with
  | Except.ok _ => true
  | Except.error _ => false

/-- Shallow embedding of one tick of the interval callback installed by
`EQLiteNodeService.startHeartbeatLoop`.  The two booleans say whether the
on-chain heartbeat transaction and the DWS registry heartbeat would fail
on this tick.  An uncaught failing action would surface as
`Except.error`; the source wraps each fallible send in try/catch, so the
embedding returns `Except.ok` with the logged flags. -/
def heartbeatTick (s : EQLiteServiceState) (chainTxFails dwsHeartbeatFails : Bool) :
    Except String TickOutcome :=
  match s.nodeManager with
  | none => Except.ok TickOutcome.stopped
  | some m =>
    if m.status ≠ EQLiteNodeStatus.RUNNING then
      Except.ok TickOutcome.skipped
    else
      let chainOk := catchLogged (fallibleSend chainTxFails)
      match s.dwsAgentId with
      | some a =>
        if a ≠ 0 then
          Except.ok (TickOutcome.ran chainOk true (catchLogged (fallibleSend dwsHeartbeatFails)))
        else
          Except.ok (TickOutcome.ran chainOk false true)
      | none => Except.ok (TickOutcome.ran chainOk false true)

-- ===========================================================================
-- Part 2: External chain provisioning (DWS external chain provisioning script)
-- ===========================================================================

/-- Network deployment mode of the provisioning script. -/
inductive NetworkMode
  | Devnet
  | Testnet
  | Mainnet
deriving DecidableEq, Repr

/-- One entry of the chain-provisioning configuration table. -/
structure ChainConfig where
  chainType : Nat
  nodeType : Nat
  version : String
  teeRequired : Bool
  teeType : String
  minMemoryGb : Nat
  minStorageGb : Nat
  minCpuCores : Nat
  dockerImage : String
  additionalParams : List String
  evmChainId : Option Nat
  forkUrl : Option String
  rpcPort : Option Nat
  wsPort : Option Nat
deriving DecidableEq, Repr

/-- The `solana` entry of CHAIN_CONFIGS. -/
def solanaConfigs : NetworkMode → ChainConfig
  | NetworkMode.Devnet =>
    { chainType := 0, nodeType := 0, version := "v2.1.0", teeRequired := false,
      teeType := "", minMemoryGb := 8, minStorageGb := 50, minCpuCores := 4,
      dockerImage := "solanalabs/solana:v1.18.26",
      additionalParams := ["--dev", "--reset"],
      evmChainId := none, forkUrl := none, rpcPort := none, wsPort := none }
  | NetworkMode.Testnet =>
    { chainType := 0, nodeType := 0, version := "v2.1.0", teeRequired := false,
      teeType := "", minMemoryGb := 64, minStorageGb := 500, minCpuCores := 8,
      dockerImage := "solanalabs/solana:v2.1.0",
      additionalParams := ["--entrypoint", "devnet.solana.com:8001"],
      evmChainId := none, forkUrl := none, rpcPort := none, wsPort := none }
  | NetworkMode.Mainnet =>
    { chainType := 0, nodeType := 0, version := "v2.1.0", teeRequired := true,
      teeType := "intel_tdx", minMemoryGb := 128, minStorageGb := 2000, minCpuCores := 16,
      dockerImage := "solanalabs/solana:v2.1.0",
      additionalParams := ["--entrypoint", "mainnet-beta.solana.com:8001"],
      evmChainId := none, forkUrl := none, rpcPort := none, wsPort := none }

/-- The `ethereum` entry of CHAIN_CONFIGS. -/
def ethereumConfigs : NetworkMode → ChainConfig
  | NetworkMode.Devnet =>
    { chainType := 13, nodeType := 2, version := "v1.1.5", teeRequired := false,
      teeType := "", minMemoryGb := 8, minStorageGb := 50, minCpuCores := 4,
      dockerImage := "ghcr.io/foundry-rs/foundry:latest", additionalParams := [],
      evmChainId := some 1, forkUrl := some "https://1rpc.io/eth",
      rpcPort := some 8545, wsPort := some 8546 }
  | NetworkMode.Testnet =>
    { chainType := 13, nodeType := 2, version := "v1.1.5", teeRequired := false,
      teeType := "", minMemoryGb := 32, minStorageGb := 500, minCpuCores := 8,
      dockerImage := "ghcr.io/paradigmxyz/reth:v1.1.5",
      additionalParams := ["--chain", "mainnet", "--http", "--http.api", "all", "--ws", "--ws.api", "all"],
      evmChainId := some 1, forkUrl := none, rpcPort := some 8545, wsPort := some 8546 }
  | NetworkMode.Mainnet =>
    { chainType := 13, nodeType := 2, version := "v1.1.5", teeRequired := true,
      teeType := "intel_tdx", minMemoryGb := 64, minStorageGb := 2500, minCpuCores := 16,
      dockerImage := "ghcr.io/paradigmxyz/reth:v1.1.5",
      additionalParams := ["--chain", "mainnet", "--http", "--http.api", "all", "--ws", "--ws.api", "all", "--full"],
      evmChainId := some 1, forkUrl := none, rpcPort := some 8545, wsPort := some 8546 }

/-- The `arbitrum` entry of CHAIN_CONFIGS. -/
def arbitrumConfigs : NetworkMode → ChainConfig
  | NetworkMode.Devnet =>
    { chainType := 9, nodeType := 2, version := "v3.2.1", teeRequired := false,
      teeType := "", minMemoryGb := 8, minStorageGb := 50, minCpuCores := 4,
      dockerImage := "ghcr.io/foundry-rs/foundry:latest", additionalParams := [],
      evmChainId := some 42161, forkUrl := some "https://arb1.arbitrum.io/rpc",
      rpcPort := some 8547, wsPort := some 8548 }
  | NetworkMode.Testnet =>
    { chainType := 9, nodeType := 2, version := "v3.2.1", teeRequired := false,
      teeType := "", minMemoryGb := 32, minStorageGb := 300, minCpuCores := 8,
      dockerImage := "offchainlabs/nitro-node:v3.2.1-d1c5a49",
      additionalParams := ["--chain.id=42161", "--http.api=net,web3,eth,arb,debug", "--http.vhosts=*", "--http.addr=0.0.0.0"],
      evmChainId := some 42161, forkUrl := none, rpcPort := some 8547, wsPort := some 8548 }
  | NetworkMode.Mainnet =>
    { chainType := 9, nodeType := 2, version := "v3.2.1", teeRequired := true,
      teeType := "intel_tdx", minMemoryGb := 64, minStorageGb := 1000, minCpuCores := 16,
      dockerImage := "offchainlabs/nitro-node:v3.2.1-d1c5a49",
      additionalParams := ["--chain.id=42161", "--http.api=net,web3,eth,arb,debug", "--http.vhosts=*", "--http.addr=0.0.0.0", "--execution.caching.archive"],
      evmChainId := some 42161, forkUrl := none, rpcPort := some 8547, wsPort := some 8548 }

/-- The `optimism` entry of CHAIN_CONFIGS. -/
def optimismConfigs : NetworkMode → ChainConfig
  | NetworkMode.Devnet =>
    { chainType := 10, nodeType := 2, version := "v1.9.4", teeRequired := false,
      teeType := "", minMemoryGb := 8, minStorageGb := 50, minCpuCores := 4,
      dockerImage := "ghcr.io/foundry-rs/foundry:latest", additionalParams := [],
      evmChainId := some 10, forkUrl := some "https://mainnet.optimism.io",
      rpcPort := some 8549, wsPort := some 8550 }
  | NetworkMode.Testnet =>
    { chainType := 10, nodeType := 2, version := "v1.9.4", teeRequired := false,
      teeType := "", minMemoryGb := 32, minStorageGb := 300, minCpuCores := 8,
      dockerImage := "ghcr.io/paradigmxyz/op-reth:v1.1.5",
      additionalParams := ["--chain", "optimism", "--http", "--http.api", "all", "--ws", "--ws.api", "all"],
      evmChainId := some 10, forkUrl := none, rpcPort := some 8549, wsPort := some 8550 }
  | NetworkMode.Mainnet =>
    { chainType := 10, nodeType := 2, version := "v1.9.4", teeRequired := true,
      teeType := "intel_tdx", minMemoryGb := 64, minStorageGb := 800, minCpuCores := 16,
      dockerImage := "ghcr.io/paradigmxyz/op-reth:v1.1.5",
      additionalParams := ["--chain", "optimism", "--http", "--http.api", "all", "--ws", "--ws.api", "all", "--full"],
      evmChainId := some 10, forkUrl := none, rpcPort := some 8549, wsPort := some 8550 }

/-- The `base` entry of CHAIN_CONFIGS. -/
def baseConfigs : NetworkMode → ChainConfig
  | NetworkMode.Devnet =>
    { chainType := 11, nodeType := 2, version := "v1.9.4", teeRequired := false,
      teeType := "", minMemoryGb := 8, minStorageGb := 50, minCpuCores := 4,
      dockerImage := "ghcr.io/foundry-rs/foundry:latest", additionalParams := [],
      evmChainId := some 8453, forkUrl := some "https://mainnet.base.org",
      rpcPort := some 8551, wsPort := some 8552 }
  | NetworkMode.Testnet =>
    { chainType := 11, nodeType := 2, version := "v1.9.4", teeRequired := false,
      teeType := "", minMemoryGb := 32, minStorageGb := 300, minCpuCores := 8,
      dockerImage := "ghcr.io/paradigmxyz/op-reth:v1.1.5",
      additionalParams := ["--chain", "base", "--http", "--http.api", "all", "--ws", "--ws.api", "all"],
      evmChainId := some 8453, forkUrl := none, rpcPort := some 8551, wsPort := some 8552 }
  | NetworkMode.Mainnet =>
    { chainType := 11, nodeType := 2, version := "v1.9.4", teeRequired := true,
      teeType := "intel_tdx", minMemoryGb := 64, minStorageGb := 600, minCpuCores := 16,
      dockerImage := "ghcr.io/paradigmxyz/op-reth:v1.1.5",
      additionalParams := ["--chain", "base", "--http", "--http.api", "all", "--ws", "--ws.api", "all", "--full"],
      evmChainId := some 8453, forkUrl := none, rpcPort := some 8551, wsPort := some 8552 }

/-- The chain-provisioning configuration table `CHAIN_CONFIGS`, as an
association list keyed by chain name, mirroring the object literal. -/
def CHAIN_CONFIGS : List (String × (NetworkMode → ChainConfig)) :=
  [("solana", solanaConfigs),
   ("ethereum", ethereumConfigs),
   ("arbitrum", arbitrumConfigs),
   ("optimism", optimismConfigs),
   ("base", baseConfigs)]

/-- Lookup `CHAIN_CONFIGS[chain]?.[networkMode]`. -/
def chainConfigFor (chain : String) (mode : NetworkMode) : Option ChainConfig :=
  (CHAIN_CONFIGS.lookup chain).map (fun f => f mode)

/-- Hardware block of the DWS container request. -/
structure DWSHardware where
  cpuCores : Nat
  memoryMb : Nat
  storageMb : Nat
  gpuType : String
  gpuCount : Nat
  networkBandwidthMbps : Nat
  publicIp : Bool
  teePlatform : String
deriving DecidableEq, Repr

/-- One port mapping of the DWS container request (protocol is always
tcp in the source). -/
structure DWSPort where
  containerPort : Nat
  expose : Bool
deriving DecidableEq, Repr

/-- Container configuration sent to the DWS provisioning API. -/
structure DWSContainerConfig where
  image : String
  tag : String
  command : List String
  hardware : DWSHardware
  ports : List DWSPort
deriving DecidableEq, Repr

/-- Shallow embedding of the container-configuration construction inside
`deployDWSNode` (the `containerConfig` literal). -/
def buildContainerConfig (config : ChainConfig) : DWSContainerConfig :=
  { image := config.dockerImage
    tag := "latest"
    command := config.additionalParams
    hardware :=
      { cpuCores := config.minCpuCores
        memoryMb := config.minMemoryGb * 1024
        storageMb := config.minStorageGb * 1024
        gpuType := "none"
        gpuCount := 0
        networkBandwidthMbps := 1000
        publicIp := true
        teePlatform := if config.teeRequired then config.teeType else "none" }
    ports :=
      { containerPort := config.rpcPort.getD 8545, expose := true } ::
        (match config.wsPort with
         | some p => [{ containerPort := p, expose := true }]
         | none => []) }

/-- Parsed response of the DWS provisioning API call, together with the
HTTP ok flag. -/
structure ProvisionResponse where
  ok : Bool
  containerId : String
  rpc : String
  ws : Option String
  status : String
deriving DecidableEq, Repr

/-- Deployment status of a `DeploymentResult`. -/
inductive DeployStatus
  | running
  | pending
  | failed
deriving DecidableEq, Repr

/-- The `DeploymentResult` record built by `deployDWSNode` (endpoints
flattened into `rpc` and `ws`). -/
structure DeploymentResult where
  network : String
  chain : String
  mode : String
  containerId : Option String
  rpc : String
  ws : String
  tee : Bool
  status : DeployStatus
deriving DecidableEq, Repr

/-- Shallow embedding of `deployDWSNode`.  The response of the DWS
provisioning API is passed in as data; an unsupported chain throws
(`Except.error`), a non-ok response returns a failed result with empty
endpoints, and an ok response returns running or pending according to
the reported status. -/
def deployDWSNode (chain : String) (networkMode : NetworkMode) (network : String)
    (resp : ProvisionResponse) : Except String DeploymentResult :=
  match chainConfigFor chain networkMode with
  | none => Except.error ("Unsupported chain: " ++ chain)
  | some config =>
    if !resp.ok then
      Except.ok
        { network := network, chain := chain, mode := "dws", containerId := none,
          rpc := "", ws := "", tee := config.teeRequired, status := DeployStatus.failed }
    else
      Except.ok
        { network := network, chain := chain, mode := "dws",
          containerId := some resp.containerId,
          rpc := resp.rpc, ws := resp.ws.getD "",
          tee := config.teeRequired,
          status := if resp.status = "running" then DeployStatus.running
                    else DeployStatus.pending }

-- ===========================================================================
-- Part 3: DWS Node Registry / Stateful Provisioner / Service Discovery
-- ===========================================================================

/-- Health status of a registered node. -/
inductive Health
  | healthy
  | unhealthy
  | unknown
deriving DecidableEq, Repr

/-- Modelled from the spec: a node descriptor of the Node Registry
(identifier, capability tags, available capacity used by the scoring
order, health status).  The node-registry implementation module is only
re-exported in the sources. -/
structure Node where
  nodeId : Nat
  capabilities : List String
  availableCapacity : Nat
  health : Health
deriving DecidableEq, Repr

/-- Modelled from the spec: a `ServiceEndpoint` of Service Discovery
(address, port, weight for load balancing, health flag, leader mark). -/
structure ServiceEndpoint where
  address : String
  port : Nat
  weight : Nat
  healthy : Bool
  isLeader : Bool
deriving DecidableEq, Repr

/-- Modelled from the spec: a named `ServiceRecord` of Service Discovery
owning its endpoint set and TXT-style metadata. -/
structure ServiceRecord where
  name : String
  endpoints : List ServiceEndpoint
  metadata : List (String × String)
deriving DecidableEq, Repr

/-- Role of a replica inside a stateful service. -/
inductive ReplicaRole
  | leader
  | replica
deriving DecidableEq, Repr

/-- Modelled from the spec: a `StatefulReplica` (assigned node, role,
endpoint address). -/
structure StatefulReplica where
  nodeId : Nat
  role : ReplicaRole
  address : String
deriving DecidableEq, Repr

/-- Modelled from the spec: a `StatefulService` (FQDN, desired replica
count, required capability, replica list). -/
structure StatefulService where
  name : String
  replicaCount : Nat
  capability : String
  replicas : List StatefulReplica
deriving DecidableEq, Repr

/-- Modelled from the spec: the state of the DWS layer — node table,
service table and discovery records. -/
structure DWSState where
  nodes : List Node
  services : List StatefulService
  records : List ServiceRecord
deriving DecidableEq, Repr

/-- Error taxonomy of the DWS layer. -/
inductive DWSError
  | validation
  | notFound
  | insufficientCapacity
  | noLeader
  | noHealthyEndpoint
deriving DecidableEq, Repr

/-- Ordering of nodes by nodeId, used for the deterministic listing
order of the registry. -/
def nodeIdLe (a b : Node) : Prop := a.nodeId ≤ b.nodeId

instance : DecidableRel nodeIdLe := fun a b => Nat.decLe a.nodeId b.nodeId

instance : IsTotal Node nodeIdLe := ⟨fun a b => Nat.le_total a.nodeId b.nodeId⟩

instance : IsTrans Node nodeIdLe := ⟨fun _ _ _ hab hbc => Nat.le_trans hab hbc⟩

/-- Modelled from the spec: `listByCapability(capability)` of the Node
Registry — nodes whose capability set contains the tag, filtered to
healthy nodes, in deterministic nodeId order. -/
def listByCapability (c : String) (s : DWSState) : List Node :=
  List.insertionSort nodeIdLe
    (s.nodes.filter (fun n => n.capabilities.contains c && n.health == Health.healthy))

/-- Modelled from the spec: the deterministic scoring order of the
Stateful Provisioner — most available capacity first, ties broken by
nodeId. -/
def scoreOrder (a b : Node) : Prop :=
  b.availableCapacity < a.availableCapacity ∨
    (a.availableCapacity = b.availableCapacity ∧ a.nodeId ≤ b.nodeId)

instance : DecidableRel scoreOrder := fun a b =>
  inferInstanceAs (Decidable (b.availableCapacity < a.availableCapacity ∨
    (a.availableCapacity = b.availableCapacity ∧ a.nodeId ≤ b.nodeId)))

instance : IsTotal Node scoreOrder := by
  constructor
  intro a b
  rcases Nat.lt_trichotomy a.availableCapacity b.availableCapacity with h | h | h
  · exact Or.inr (Or.inl h)
  · rcases Nat.le_total a.nodeId b.nodeId with h2 | h2
    · exact Or.inl (Or.inr ⟨h, h2⟩)
    · exact Or.inr (Or.inr ⟨h.symm, h2⟩)
  · exact Or.inl (Or.inl h)

instance : IsTrans Node scoreOrder := by
  constructor
  intro a b c hab hbc
  rcases hab with hab | ⟨hab1, hab2⟩
  · rcases hbc with hbc | ⟨hbc1, hbc2⟩
    · exact Or.inl (Nat.lt_trans hbc hab)
    · exact Or.inl (hbc1 ▸ hab)
  · rcases hbc with hbc | ⟨hbc1, hbc2⟩
    · exact Or.inl (hab1 ▸ hbc)
    · exact Or.inr ⟨hab1.trans hbc1, Nat.le_trans hab2 hbc2⟩

/-- Default service port used by the model for published endpoints. -/
def servicePort : Nat := 4661

/-- Address assigned to a replica scheduled on a node. -/
def nodeAddress (n : Node) : String := "node-" ++ toString n.nodeId

/-- Modelled from the spec: role assignment of the Stateful Provisioner —
role leader to the first-selected node, replica to the rest. -/
def assignRoles : List Node → List StatefulReplica
  | [] => []
  | n :: rest =>
    { nodeId := n.nodeId, role := ReplicaRole.leader, address := nodeAddress n } ::
      rest.map (fun m =>
        { nodeId := m.nodeId, role := ReplicaRole.replica, address := nodeAddress m })

/-- The `ServiceEndpoint` published into Service Discovery for a replica:
initially healthy, weight 1, leader mark from the role. -/
def endpointOfReplica (r : StatefulReplica) : ServiceEndpoint :=
  { address := r.address, port := servicePort, weight := 1,
    healthy := true, isLeader := r.role == ReplicaRole.leader }

/-- Configuration of a stateful-service deployment request. -/
structure DeployConfig where
  name : String
  capability : String
  replicaCount : Nat
deriving DecidableEq, Repr

/-- Modelled from the spec: `deploy(config)` of the Stateful Provisioner.
Queries the registry for healthy nodes with the capability; fails with
`InsufficientCapacityError` (leaving the state unchanged) if fewer than
N are available; selects N nodes by the deterministic scoring order;
assigns leader to the first-selected node and replica to the rest; and
registers one `ServiceEndpoint` per replica under the service's FQDN. -/
def deploy (cfg : DeployConfig) (s : DWSState) :
    Except DWSError (DWSState × StatefulService) :=
  let eligible := listByCapability cfg.capability s
  if eligible.length < cfg.replicaCount then
    Except.error DWSError.insufficientCapacity
  else
    let selected := (List.insertionSort scoreOrder eligible).take cfg.replicaCount
    let replicas := assignRoles selected
    let svc : StatefulService :=
      { name := cfg.name, replicaCount := cfg.replicaCount,
        capability := cfg.capability, replicas := replicas }
    let record : ServiceRecord :=
      { name := cfg.name, endpoints := replicas.map endpointOfReplica, metadata := [] }
    Except.ok
      ({ s with services := svc :: s.services, records := record :: s.records }, svc)

/-- Lookup of a discovery record by FQDN. -/
def getServiceByFqdn (s : DWSState) (name : String) : Option ServiceRecord :=
  s.records.find? (fun r => r.name == name)

/-- The healthy subset of a record's endpoint set; every resolution call
draws from it (unhealthy endpoints are excluded everywhere except
full-listing debug queries). -/
def healthyEndpoints (r : ServiceRecord) : List ServiceEndpoint :=
  r.endpoints.filter (fun e => e.healthy)

/-- Modelled from the spec: `resolveA(name)` — healthy endpoint addresses. -/
def resolveA (s : DWSState) (name : String) : List String :=
  match getServiceByFqdn s name with
  | some r => (healthyEndpoints r).map (fun e => e.address)
  | none => []

/-- Modelled from the spec: `resolveSRV(name)` — address, port and weight
of each healthy endpoint. -/
def resolveSRV (s : DWSState) (name : String) : List (String × Nat × Nat) :=
  match getServiceByFqdn s name with
  | some r => (healthyEndpoints r).map (fun e => (e.address, e.port, e.weight))
  | none => []

/-- Modelled from the spec: `resolveLeader(name)` — the healthy endpoint
currently marked leader; fails with `NoLeaderError` when none is
available. -/
def resolveLeader (s : DWSState) (name : String) : Except DWSError ServiceEndpoint :=
  match getServiceByFqdn s name with
  | none => Except.error DWSError.noLeader
  | some r =>
    match (healthyEndpoints r).find? (fun e => e.isLeader) with
    | some e => Except.ok e
    | none => Except.error DWSError.noLeader

/-- Modelled from the spec: `resolveWithLoadBalancing(name, strategy)`
with a round-robin counter `k`; fails with `NoHealthyEndpointError` when
the healthy set is empty. -/
def resolveWithLoadBalancing (s : DWSState) (name : String) (k : Nat) :
    Except DWSError ServiceEndpoint :=
  match getServiceByFqdn s name with
  | none => Except.error DWSError.noHealthyEndpoint
  | some r =>
    let hs := healthyEndpoints r
    match hs.get? (k % hs.length) with
    | some e => Except.ok e
    | none => Except.error DWSError.noHealthyEndpoint

/-- Health-flag update of a single endpoint when it matches the target
address and port. -/
def setEndpointHealth (h : Bool) (address : String) (port : Nat)
    (e : ServiceEndpoint) : ServiceEndpoint :=
  if e.address == address && e.port == port then { e with healthy := h } else e

/-- Health-flag update of one discovery record when it is the named one. -/
def markRecordEndpoint (h : Bool) (name address : String) (port : Nat)
    (r : ServiceRecord) : ServiceRecord :=
  if r.name == name then
    { r with endpoints := r.endpoints.map (setEndpointHealth h address port) }
  else r

/-- Modelled from the spec: the common body of `markEndpointHealthy` and
`markEndpointUnhealthy` — sets the health flag of the matching endpoints
of the named record. -/
def markEndpoint (h : Bool) (s : DWSState) (name address : String) (port : Nat) :
    DWSState :=
  { s with records := s.records.map (markRecordEndpoint h name address port) }

/-- Modelled from the spec: `markEndpointHealthy` (idempotent). -/
def markEndpointHealthy (s : DWSState) (name address : String) (port : Nat) : DWSState :=
  markEndpoint true s name address port

/-- Modelled from the spec: `markEndpointUnhealthy` (idempotent). -/
def markEndpointUnhealthy (s : DWSState) (name address : String) (port : Nat) : DWSState :=
  markEndpoint false s name address port

/-- Demotes every replica of a list to the replica role. -/
def demoteAll (rs : List StatefulReplica) : List StatefulReplica :=
  rs.map (fun r => { r with role := ReplicaRole.replica })

/-- Promotion of the replica at position `i`: it becomes the unique
leader, every other replica is (re)set to the replica role. -/
def promoteAt : Nat → List StatefulReplica → List StatefulReplica
  | _, [] => []
  | 0, r :: rest => { r with role := ReplicaRole.leader } :: demoteAll rest
  | Nat.succ i, r :: rest => { r with role := ReplicaRole.replica } :: promoteAt i rest

/-- Modelled from the spec: failover of the Stateful Provisioner —
promotes one surviving replica of the named service to leader,
republishing roles. -/
def failover (name : String) (i : Nat) (s : DWSState) : DWSState :=
  { s with
    services := s.services.map (fun svc =>
      if svc.name == name then { svc with replicas := promoteAt i svc.replicas } else svc) }

/-- Modelled from the spec: `terminate(serviceId)` — deregisters the
service and its discovery record. -/
def terminate (name : String) (s : DWSState) : DWSState :=
  { s with
    services := s.services.filter (fun svc => svc.name ≠ name),
    records := s.records.filter (fun r => r.name ≠ name) }

/-- Registration of a node into the registry. -/
def registerNode (n : Node) (s : DWSState) : DWSState :=
  { s with nodes := n :: s.nodes }

/-- Replica set a scale-down keeps before any promotion: the current
leader (never removed while any replica remains) followed by non-leader
replicas in order, up to the new count. -/
def keptReplicas (newCount : Nat) (rs : List StatefulReplica) : List StatefulReplica :=
  (rs.filter (fun r => r.role == ReplicaRole.leader)).take 1 ++
    (rs.filter (fun r => !(r.role == ReplicaRole.leader))).take
      (newCount - ((rs.filter (fun r => r.role == ReplicaRole.leader)).take 1).length)

/-- Modelled from the spec: the replica set resulting from scaling down
to `newCount`.  Removal never removes the current leader unless it is
the last replica (`newCount = 0` removes everything); when the kept set
would hold no leader — the leader had to be removed, or none was
marked — the first kept replica is promoted before the removal takes
effect, standing in for the spec's most-recently-heartbeating replica
(heartbeat recency is not part of the model). -/
def scaleDownReplicas (newCount : Nat) (rs : List StatefulReplica) : List StatefulReplica :=
  if newCount = 0 then []
  else if (keptReplicas newCount rs).countP (fun r => r.role == ReplicaRole.leader) = 0 then
    promoteAt 0 (keptReplicas newCount rs)
  else keptReplicas newCount rs

/-- Nodes able to host additional replicas of a service during a
scale-up: healthy holders of the capability in scoring order, excluding
nodes already hosting a replica of the service. -/
def scaleUpCandidates (svc : StatefulService) (s : DWSState) : List Node :=
  (List.insertionSort scoreOrder (listByCapability svc.capability s)).filter
    (fun n => !(svc.replicas.map (fun r => r.nodeId)).contains n.nodeId)

/-- Replica set resulting from scaling up to `newCount`: the existing
replicas (roles untouched, so the leader stays) followed by fresh
replica-role entries on the first eligible candidate nodes. -/
def scaleUpReplicas (svc : StatefulService) (s : DWSState) (newCount : Nat) :
    List StatefulReplica :=
  svc.replicas ++
    ((scaleUpCandidates svc s).take (newCount - svc.replicas.length)).map
      (fun n => { nodeId := n.nodeId, role := ReplicaRole.replica, address := nodeAddress n })

/-- Replacement of the named service's replica set, republishing the
matching discovery record's endpoints. -/
def setReplicas (name : String) (rs : List StatefulReplica) (s : DWSState) : DWSState :=
  { s with
    services := s.services.map (fun svc =>
      if svc.name == name then { svc with replicas := rs } else svc),
    records := s.records.map (fun r =>
      if r.name == name then { r with endpoints := rs.map endpointOfReplica } else r) }

/-- Modelled from the spec: `scale(serviceId, newCount)` of the Stateful
Provisioner.  Adds or removes replicas to reach `newCount`: scaling down
never removes the current leader unless it is the last replica,
promoting a replacement first when the kept set would be leaderless;
scaling up adds replica-role entries on eligible nodes not already
hosting one, failing with `InsufficientCapacityError` (state unchanged)
when too few are available; an unknown service fails with
`NotFoundError`. -/
def scale (name : String) (newCount : Nat) (s : DWSState) : Except DWSError DWSState :=
  match s.services.find? (fun svc => svc.name == name) with
  | none => Except.error DWSError.notFound
  | some svc =>
    if newCount < svc.replicas.length then
      Except.ok (setReplicas name (scaleDownReplicas newCount svc.replicas) s)
    else if (scaleUpCandidates svc s).length < newCount - svc.replicas.length then
      Except.error DWSError.insufficientCapacity
    else
      Except.ok (setReplicas name (scaleUpReplicas svc s newCount) s)

/-- Operations of the DWS layer generating its reachable states:
node registration, stateful deploy, scale, endpoint health marks,
failover promotion and termination. -/
inductive DWSOp
  | register (n : Node)
  | deployOp (cfg : DeployConfig)
  | scaleOp (name : String) (newCount : Nat)
  | markHealthy (name address : String) (port : Nat)
  | markUnhealthy (name address : String) (port : Nat)
  | failoverOp (name : String) (i : Nat)
  | terminateOp (name : String)

/-- One step of the DWS layer; a failed deployment or scaling leaves the
state unchanged. -/
def dwsStep (s : DWSState) (op : DWSOp) : DWSState :=
  match op with
  | DWSOp.register n => registerNode n s
  | DWSOp.deployOp cfg =>
    match deploy cfg s with
    | Except.ok (s2, _) => s2
    | Except.error _ => s
  | DWSOp.scaleOp name newCount =>
    match scale name newCount s with
    | Except.ok s2 => s2
    | Except.error _ => s
  | DWSOp.markHealthy name address port => markEndpointHealthy s name address port
  | DWSOp.markUnhealthy name address port => markEndpointUnhealthy s name address port
  | DWSOp.failoverOp name i => failover name i s
  | DWSOp.terminateOp name => terminate name s

/-- The empty initial state of the DWS layer. -/
def dwsInit : DWSState := { nodes := [], services := [], records := [] }

/-- States reachable from the empty state through DWS operations. -/
inductive Reachable : DWSState → Prop
  | base : Reachable dwsInit
  | next {s : DWSState} (op : DWSOp) : Reachable s → Reachable (dwsStep s op)

/-- The number of replicas of a service holding the leader role. -/
def leaderCount (svc : StatefulService) : Nat :=
  svc.replicas.countP (fun r => r.role == ReplicaRole.leader)

/-- Ordering on (nodeId, availableCapacity) pairs following the spec's
words for the claimed miner-selection rule: most available capacity
first, ties broken by nodeId.  Kept separate from the source embedding
so the two selection rules can be compared. -/
def pairScoreOrder (a b : Hex × Nat) : Prop :=
  b.2 < a.2 ∨ (a.2 = b.2 ∧ a.1 ≤ b.1)

instance : DecidableRel pairScoreOrder := fun a b =>
  inferInstanceAs (Decidable (b.2 < a.2 ∨ (a.2 = b.2 ∧ a.1 ≤ b.1)))

/-- Selection of miner ids by the claimed capacity-scoring order, written
from the spec's words for comparison with the selection the source
actually performs. -/
def specCapacityScoredSelect (miners : List (Hex × Nat)) (nodeCount : Nat) : List Hex :=
  ((List.insertionSort pairScoreOrder miners).take nodeCount).map (fun p => p.1)

-- ===========================================================================
-- Helper lemmas
-- ===========================================================================

theorem leaderCount_assignRoles_le (l : List Node) :
    (assignRoles l).countP (fun r => r.role == ReplicaRole.leader) ≤ 1 := by
  cases l with
  | nil => simp [assignRoles]
  | cons n rest =>
    simp [assignRoles, List.countP_cons, List.countP_map, Function.comp]

theorem leaderCount_assignRoles_of_ne_nil (l : List Node) (h : l ≠ []) :
    (assignRoles l).countP (fun r => r.role == ReplicaRole.leader) = 1 := by
  cases l with
  | nil => exact absurd rfl h
  | cons n rest =>
    simp [assignRoles, List.countP_cons, List.countP_map, Function.comp]

theorem countP_leader_demoteAll (rs : List StatefulReplica) :
    (demoteAll rs).countP (fun r => r.role == ReplicaRole.leader) = 0 := by
  simp [demoteAll, List.countP_map, Function.comp]

theorem countP_leader_promoteAt (i : Nat) (rs : List StatefulReplica) :
    (promoteAt i rs).countP (fun r => r.role == ReplicaRole.leader) ≤ 1 := by
  induction rs generalizing i with
  | nil => simp [promoteAt]
  | cons r rest ih =>
    cases i with
    | zero =>
      simp [promoteAt, List.countP_cons, countP_leader_demoteAll]
    | succ j =>
      simp [promoteAt, List.countP_cons]
      exact ih j

theorem countP_leader_keptReplicas (newCount : Nat) (rs : List StatefulReplica) :
    (keptReplicas newCount rs).countP (fun r => r.role == ReplicaRole.leader) ≤ 1 := by
  rw [keptReplicas, List.countP_append]
  have h1 : ((rs.filter (fun r => r.role == ReplicaRole.leader)).take 1).countP
      (fun r => r.role == ReplicaRole.leader) ≤ 1 :=
    le_trans (List.countP_le_length _) (List.length_take_le 1 _)
  have h2 : ((rs.filter (fun r => !(r.role == ReplicaRole.leader))).take
        (newCount -
          ((rs.filter (fun r => r.role == ReplicaRole.leader)).take 1).length)).countP
      (fun r => r.role == ReplicaRole.leader) = 0 := by
    rw [List.countP_eq_zero]
    intro r hr
    have hmem := List.take_subset _ _ hr
    have hneg := (List.mem_filter.mp hmem).2
    simpa using hneg
  omega

theorem countP_leader_scaleDownReplicas (newCount : Nat) (rs : List StatefulReplica) :
    (scaleDownReplicas newCount rs).countP (fun r => r.role == ReplicaRole.leader) ≤ 1 := by
  rw [scaleDownReplicas]
  by_cases h0 : newCount = 0
  · simp [h0]
  · rw [if_neg h0]
    by_cases hz :
        (keptReplicas newCount rs).countP (fun r => r.role == ReplicaRole.leader) = 0
    · rw [if_pos hz]
      exact countP_leader_promoteAt 0 _
    · rw [if_neg hz]
      exact countP_leader_keptReplicas newCount rs

theorem countP_leader_scaleUpReplicas (svc : StatefulService) (s : DWSState)
    (newCount : Nat) (h : leaderCount svc ≤ 1) :
    (scaleUpReplicas svc s newCount).countP (fun r => r.role == ReplicaRole.leader) ≤ 1 := by
  rw [scaleUpReplicas, List.countP_append]
  have h2 : (((scaleUpCandidates svc s).take (newCount - svc.replicas.length)).map
      (fun n => ({ nodeId := n.nodeId, role := ReplicaRole.replica,
                   address := nodeAddress n } : StatefulReplica))).countP
      (fun r => r.role == ReplicaRole.leader) = 0 := by
    rw [List.countP_eq_zero]
    intro r hr
    obtain ⟨n, _, rfl⟩ := List.mem_map.mp hr
    simp
  rw [leaderCount] at h
  omega

theorem setReplicas_leader_bound (name : String) (rs : List StatefulReplica)
    (s : DWSState)
    (hrs : rs.countP (fun r => r.role == ReplicaRole.leader) ≤ 1)
    (hinv : ∀ svc ∈ s.services, leaderCount svc ≤ 1) :
    ∀ u ∈ (setReplicas name rs s).services, leaderCount u ≤ 1 := by
  intro u hu
  rw [setReplicas] at hu
  simp only [List.mem_map] at hu
  obtain ⟨v, hv, hvu⟩ := hu
  by_cases hn : (v.name == name) = true
  · rw [if_pos hn] at hvu
    subst hvu
    exact hrs
  · rw [if_neg (by simpa using hn)] at hvu
    subst hvu
    exact hinv v hv

theorem scale_ok_leader_bound {name : String} {newCount : Nat} {s s2 : DWSState}
    (hinv : ∀ svc ∈ s.services, leaderCount svc ≤ 1)
    (h : scale name newCount s = Except.ok s2) :
    ∀ u ∈ s2.services, leaderCount u ≤ 1 := by
  cases hf : s.services.find? (fun svc => svc.name == name) with
  | none =>
    simp only [scale, hf] at h
    cases h
  | some svc =>
    have hsvc := hinv svc (List.mem_of_find?_eq_some hf)
    by_cases hlt : newCount < svc.replicas.length
    · simp only [scale, hf] at h
      rw [if_pos hlt] at h
      injection h with h
      subst h
      exact setReplicas_leader_bound name _ s
        (countP_leader_scaleDownReplicas newCount svc.replicas) hinv
    · by_cases hcap : (scaleUpCandidates svc s).length < newCount - svc.replicas.length
      · simp only [scale, hf] at h
        rw [if_neg hlt, if_pos hcap] at h
        cases h
      · simp only [scale, hf] at h
        rw [if_neg hlt, if_neg hcap] at h
        injection h with h
        subst h
        exact setReplicas_leader_bound name _ s
          (countP_leader_scaleUpReplicas svc s newCount hsvc) hinv

theorem setEndpointHealth_idem (h : Bool) (address : String) (port : Nat)
    (e : ServiceEndpoint) :
    setEndpointHealth h address port (setEndpointHealth h address port e) =
      setEndpointHealth h address port e := by
  by_cases hc : (e.address == address && e.port == port) = true
  · simp [setEndpointHealth, hc]
  · simp [setEndpointHealth, hc]

theorem markRecordEndpoint_idem (h : Bool) (name address : String) (port : Nat)
    (r : ServiceRecord) :
    markRecordEndpoint h name address port (markRecordEndpoint h name address port r) =
      markRecordEndpoint h name address port r := by
  by_cases hn : (r.name == name) = true
  · simp only [markRecordEndpoint, hn, if_pos, List.map_map]
    congr 1
    exact List.map_congr_left (fun e _ => setEndpointHealth_idem h address port e)
  · simp [markRecordEndpoint, hn]

theorem markEndpoint_idem (h : Bool) (s : DWSState) (name address : String) (port : Nat) :
    markEndpoint h (markEndpoint h s name address port) name address port =
      markEndpoint h s name address port := by
  simp only [markEndpoint, List.map_map]
  congr 1
  exact List.map_congr_left (fun r _ => markRecordEndpoint_idem h name address port r)

theorem markRecordEndpoint_name (h : Bool) (name address : String) (port : Nat)
    (r : ServiceRecord) :
    (markRecordEndpoint h name address port r).name = r.name := by
  unfold markRecordEndpoint
  split <;> rfl

theorem getServiceByFqdn_markEndpoint (h : Bool) (s : DWSState)
    (name address : String) (port : Nat) (q : String) :
    getServiceByFqdn (markEndpoint h s name address port) q =
      (getServiceByFqdn s q).map (markRecordEndpoint h name address port) := by
  unfold getServiceByFqdn markEndpoint
  simp only []
  generalize s.records = l
  induction l with
  | nil => rfl
  | cons r rest ih =>
    by_cases hn : (r.name == q) = true
    · simp [List.find?, markRecordEndpoint_name, hn]
    · simp [List.find?, markRecordEndpoint_name, hn, ih]

theorem setEndpointHealth_false_excluded (address : String) (port : Nat)
    (e : ServiceEndpoint)
    (ha : (setEndpointHealth false address port e).address = address)
    (hp : (setEndpointHealth false address port e).port = port) :
    (setEndpointHealth false address port e).healthy = false := by
  by_cases hc : (e.address == address && e.port == port) = true
  · simp [setEndpointHealth, hc]
  · rw [setEndpointHealth, if_neg hc] at ha hp
    exact absurd (by simp [ha, hp]) hc

theorem marked_unhealthy_excluded (s : DWSState) (name address : String) (port : Nat)
    (rec : ServiceRecord)
    (hrec : getServiceByFqdn (markEndpointUnhealthy s name address port) name = some rec)
    (e : ServiceEndpoint) (he : e ∈ rec.endpoints)
    (ha : e.address = address) (hp : e.port = port) :
    e.healthy = false := by
  rw [markEndpointUnhealthy, getServiceByFqdn_markEndpoint] at hrec
  cases hg : getServiceByFqdn s name with
  | none => rw [hg] at hrec; cases hrec
  | some r0 =>
    rw [hg] at hrec
    simp only [Option.map_some'] at hrec
    rw [getServiceByFqdn] at hg
    have hname : (r0.name == name) = true := by
      have hfs := List.find?_some hg
      simpa using hfs
    rw [markRecordEndpoint, if_pos hname] at hrec
    injection hrec with hrec
    rw [← hrec] at he
    obtain ⟨e0, _, rfl⟩ := List.mem_map.mp he
    exact setEndpointHealth_false_excluded address port e0 ha hp

theorem healthy_mem_marked (s : DWSState) (name address : String) (port : Nat)
    (rec : ServiceRecord)
    (hrec : getServiceByFqdn (markEndpointUnhealthy s name address port) name = some rec)
    (e : ServiceEndpoint) (he : e ∈ healthyEndpoints rec) :
    ¬(e.address = address ∧ e.port = port) := by
  rintro ⟨ha, hp⟩
  have hmem := (List.mem_filter.mp he).1
  have hh := (List.mem_filter.mp he).2
  have hf := marked_unhealthy_excluded s name address port rec hrec e hmem ha hp
  rw [hf] at hh
  cases hh

theorem deploy_ok {cfg : DeployConfig} {s s2 : DWSState} {svc : StatefulService}
    (h : deploy cfg s = Except.ok (s2, svc)) :
    cfg.replicaCount ≤ (listByCapability cfg.capability s).length ∧
    svc.replicas = assignRoles
      ((List.insertionSort scoreOrder (listByCapability cfg.capability s)).take
        cfg.replicaCount) ∧
    svc.name = cfg.name ∧ svc.replicaCount = cfg.replicaCount ∧
    svc.capability = cfg.capability ∧
    s2.nodes = s.nodes ∧
    s2.services = svc :: s.services ∧
    s2.records =
      { name := cfg.name, endpoints := svc.replicas.map endpointOfReplica,
        metadata := ([] : List (String × String)) } :: s.records := by
  unfold deploy at h
  by_cases hc : (listByCapability cfg.capability s).length < cfg.replicaCount
  · rw [if_pos hc] at h
    cases h
  · rw [if_neg hc] at h
    simp only [Except.ok.injEq, Prod.mk.injEq] at h
    obtain ⟨hA, hB⟩ := h
    subst hA
    subst hB
    refine ⟨Nat.not_lt.mp hc, rfl, rfl, rfl, rfl, rfl, rfl, rfl⟩

theorem at_most_one_leader_dwsStep (s : DWSState) (op : DWSOp)
    (h : ∀ svc ∈ s.services, leaderCount svc ≤ 1) :
    ∀ svc ∈ (dwsStep s op).services, leaderCount svc ≤ 1 := by
  cases op with
  | register n =>
    simpa [dwsStep, registerNode] using h
  | deployOp cfg =>
    cases hd : deploy cfg s with
    | error e => simpa [dwsStep, hd] using h
    | ok p =>
      obtain ⟨s2, svc⟩ := p
      obtain ⟨hc, hrep, _, _, _, _, hserv, _⟩ := deploy_ok hd
      intro u hu
      rw [dwsStep] at hu
      rw [hd] at hu
      rw [hserv] at hu
      rcases List.mem_cons.mp hu with hu | hu
      · subst hu
        rw [leaderCount, hrep]
        exact leaderCount_assignRoles_le _
      · exact h u hu
  | scaleOp name newCount =>
    cases hs : scale name newCount s with
    | error e => simpa [dwsStep, hs] using h
    | ok s2 =>
      intro u hu
      simp only [dwsStep, hs] at hu
      exact scale_ok_leader_bound h hs u hu
  | markHealthy name address port =>
    simpa [dwsStep, markEndpointHealthy, markEndpoint] using h
  | markUnhealthy name address port =>
    simpa [dwsStep, markEndpointUnhealthy, markEndpoint] using h
  | failoverOp name i =>
    intro u hu
    rw [dwsStep, failover] at hu
    simp only [List.mem_map] at hu
    obtain ⟨v, hv, hvu⟩ := hu
    by_cases hn : (v.name == name) = true
    · rw [if_pos hn] at hvu
      subst hvu
      exact countP_leader_promoteAt i v.replicas
    · rw [if_neg (by simpa using hn)] at hvu
      subst hvu
      exact h v hv
  | terminateOp name =>
    intro u hu
    rw [dwsStep, terminate] at hu
    exact h u (List.mem_of_mem_filter hu)

-- ===========================================================================
-- Claims
-- ===========================================================================

/-- C1: a provisioning request for more nodes than there are active
miners makes `createDatabase` fail with the insufficient-capacity error,
issuing no on-chain `createDatabase` transaction and selecting no
miners — no partial state is produced. -/
theorem c1_createDatabase_insufficient_capacity
    (activeMiners : List Hex) (databaseId : Hex) (nodeCount : Nat)
    (h : activeMiners.length < nodeCount) :
    (EQLiteNodeService.createDatabase activeMiners databaseId nodeCount).result =
      Except.error ("Not enough active miners: need " ++ toString nodeCount ++
        ", have " ++ toString activeMiners.length) ∧
    (EQLiteNodeService.createDatabase activeMiners databaseId nodeCount).issuedTxs = [] ∧
    (EQLiteNodeService.createDatabase activeMiners databaseId nodeCount).selectedMiners = [] := by
  simp [EQLiteNodeService.createDatabase, h]

/-- Witness for C1: two replicas requested against one active miner. -/
theorem c1_createDatabase_insufficient_capacity_witness :
    ([(0 : Hex)].length < 2) ∧
    (EQLiteNodeService.createDatabase [0] 7 2).issuedTxs = [] :=
  ⟨by decide, (c1_createDatabase_insufficient_capacity [0] 7 2 (by decide)).2.1⟩

/-- C3 counterexample: the source selects `activeMiners.slice(0, N)` in
registry order, not by the claimed capacity-then-nodeId scoring order.
With active miners listed as [2, 1] (both with available capacity 5) and
one node requested, the source selects miner 2 while the claimed scoring
order selects miner 1. -/
theorem c3_counterexample_selection_not_capacity_scored :
    (EQLiteNodeService.createDatabase [2, 1] 7 1).selectedMiners = [2] ∧
    specCapacityScoredSelect [(2, 5), (1, 5)] 1 = [1] ∧
    (EQLiteNodeService.createDatabase [2, 1] 7 1).selectedMiners ≠
      specCapacityScoredSelect [(2, 5), (1, 5)] 1 := by
  refine ⟨by decide, by decide, by decide⟩

/-- C3 (amended): `createDatabase` selects the first N entries of the
active-miner list exactly in the order the registry returns them
(registration order), with no capacity scoring; in particular, for
miners A, B, C registered in that order and a three-node request, the
selection is [A, B, C], so the first-selected node — the leader under
the provisioner's leader-first rule — is A. -/
theorem c3_selection_take_in_registration_order
    (activeMiners : List Hex) (databaseId : Hex) (nodeCount : Nat)
    (h : nodeCount ≤ activeMiners.length) :
    (EQLiteNodeService.createDatabase activeMiners databaseId nodeCount).selectedMiners =
      activeMiners.take nodeCount ∧
    (∀ a b c dbId : Hex,
      (EQLiteNodeService.createDatabase [a, b, c] dbId 3).selectedMiners = [a, b, c] ∧
      ((EQLiteNodeService.createDatabase [a, b, c] dbId 3).selectedMiners).head? = some a) := by
  constructor
  · simp [EQLiteNodeService.createDatabase, Nat.not_lt.mpr h]
  · intro a b c dbId
    constructor
    · simp [EQLiteNodeService.createDatabase]
    · simp [EQLiteNodeService.createDatabase]

/-- Witness for the amended C3: three miners, three requested. -/
theorem c3_selection_take_in_registration_order_witness :
    ((3 : Nat) ≤ ([10, 20, 30] : List Hex).length) ∧
    (EQLiteNodeService.createDatabase [10, 20, 30] 7 3).selectedMiners = [10, 20, 30] :=
  ⟨by decide, (c3_selection_take_in_registration_order [10, 20, 30] 7 3 (by decide)).1⟩

/-- C8: when the chain is configured, a non-ok response of the DWS
provisioning API makes `deployDWSNode` return (not throw) a failed
`DeploymentResult` with empty rpc and ws endpoints; on an ok response
the result is running exactly when the API reports status running, and
pending otherwise. -/
theorem c8_deployDWSNode_response_handling
    (chain : String) (mode : NetworkMode) (network : String)
    (resp : ProvisionResponse) (config : ChainConfig)
    (h : chainConfigFor chain mode = some config) :
    (resp.ok = false →
      deployDWSNode chain mode network resp =
        Except.ok
          { network := network, chain := chain, mode := "dws", containerId := none,
            rpc := "", ws := "", tee := config.teeRequired,
            status := DeployStatus.failed }) ∧
    (resp.ok = true →
      ∃ r, deployDWSNode chain mode network resp = Except.ok r ∧
        (r.status = DeployStatus.running ↔ resp.status = "running") ∧
        (resp.status ≠ "running" → r.status = DeployStatus.pending)) := by
  constructor
  · intro hok
    simp [deployDWSNode, h, hok]
  · intro hok
    refine ⟨{ network := network, chain := chain, mode := "dws",
              containerId := some resp.containerId,
              rpc := resp.rpc, ws := resp.ws.getD "",
              tee := config.teeRequired,
              status := if resp.status = "running" then DeployStatus.running
                        else DeployStatus.pending }, ?_, ?_, ?_⟩
    · simp [deployDWSNode, h, hok]
    · by_cases hs : resp.status = "running" <;> simp [hs]
    · intro hs
      simp [hs]

/-- Witness for C8: a configured chain and a rejected provisioning call. -/
theorem c8_deployDWSNode_response_handling_witness :
    chainConfigFor "ethereum" NetworkMode.Testnet =
      some (ethereumConfigs NetworkMode.Testnet) ∧
    deployDWSNode "ethereum" NetworkMode.Testnet "testnet"
        { ok := false, containerId := "", rpc := "", ws := none, status := "" } =
      Except.ok
        { network := "testnet", chain := "ethereum", mode := "dws", containerId := none,
          rpc := "", ws := "", tee := false, status := DeployStatus.failed } := by
  have h : chainConfigFor "ethereum" NetworkMode.Testnet =
      some (ethereumConfigs NetworkMode.Testnet) := by decide
  refine ⟨h, ?_⟩
  have := (c8_deployDWSNode_response_handling "ethereum" NetworkMode.Testnet "testnet"
    { ok := false, containerId := "", rpc := "", ws := none, status := "" }
    (ethereumConfigs NetworkMode.Testnet) h).1 rfl
  simpa using this

/-- C9: the heartbeat loop body never propagates an exception (both
fallible heartbeat sends are caught and logged); it sends nothing while
the node status is not RUNNING; and it clears its interval exactly when
the node manager is null, which only `stopNode` makes so. -/
theorem c9_heartbeat_loop_safety
    (s : EQLiteServiceState) (chainTxFails dwsHeartbeatFails : Bool) :
    (∀ e, heartbeatTick s chainTxFails dwsHeartbeatFails ≠ Except.error e) ∧
    (heartbeatTick s chainTxFails dwsHeartbeatFails = Except.ok TickOutcome.stopped ↔
      s.nodeManager = none) ∧
    (∀ m, s.nodeManager = some m → m.status ≠ EQLiteNodeStatus.RUNNING →
      heartbeatTick s chainTxFails dwsHeartbeatFails = Except.ok TickOutcome.skipped) ∧
    (EQLiteNodeService.stopNode s).nodeManager = none := by
  obtain ⟨mgr, agentId⟩ := s
  cases mgr with
  | none => simp [heartbeatTick, EQLiteNodeService.stopNode]
  | some m =>
    by_cases hr : m.status = EQLiteNodeStatus.RUNNING
    · cases agentId with
      | none => simp [heartbeatTick, hr, EQLiteNodeService.stopNode]
      | some a =>
        by_cases ha : a = 0
        · simp [heartbeatTick, hr, ha, EQLiteNodeService.stopNode]
        · simp [heartbeatTick, hr, ha, EQLiteNodeService.stopNode]
    · simp [heartbeatTick, hr, EQLiteNodeService.stopNode]

/-- Witness for C9: a stopped-manager state never errors and reports the
loop as cleared. -/
theorem c9_heartbeat_loop_safety_witness :
    heartbeatTick { nodeManager := none, dwsAgentId := none } true true =
      Except.ok TickOutcome.stopped :=
  (c9_heartbeat_loop_safety { nodeManager := none, dwsAgentId := none } true true).2.1.mpr rfl

/-- C10: in the chain-provisioning table every Mainnet entry requires a
TEE of type intel_tdx, every Devnet and Testnet entry requires none, and
the hardware.teePlatform field of the container request equals the
config's teeType when teeRequired holds and "none" otherwise. -/
theorem c10_tee_configuration_invariant :
    (∀ entry ∈ CHAIN_CONFIGS,
      (entry.2 NetworkMode.Mainnet).teeRequired = true ∧
      (entry.2 NetworkMode.Mainnet).teeType = "intel_tdx" ∧
      (entry.2 NetworkMode.Devnet).teeRequired = false ∧
      (entry.2 NetworkMode.Testnet).teeRequired = false) ∧
    (∀ config : ChainConfig,
      (buildContainerConfig config).hardware.teePlatform =
        if config.teeRequired then config.teeType else "none") := by
  constructor
  · decide
  · intro config
    rfl

/-- Witness for C10: the solana entry of the table. -/
theorem c10_tee_configuration_invariant_witness :
    (solanaConfigs NetworkMode.Mainnet).teeRequired = true ∧
    (solanaConfigs NetworkMode.Mainnet).teeType = "intel_tdx" :=
  ⟨(c10_tee_configuration_invariant.1 ("solana", solanaConfigs) (List.Mem.head _)).1,
   (c10_tee_configuration_invariant.1 ("solana", solanaConfigs) (List.Mem.head _)).2.1⟩

/-- C2: a successful deploy of a stateful service with desired replica
count at least one produces a service with exactly one leader replica,
and every state reachable through the DWS operations keeps at most one
leader per service (zero is possible only transiently). -/
theorem c2_exactly_one_leader
    (cfg : DeployConfig) (s s2 : DWSState) (svc : StatefulService)
    (hR : 1 ≤ cfg.replicaCount)
    (h : deploy cfg s = Except.ok (s2, svc)) :
    leaderCount svc = 1 ∧
    (∀ t : DWSState, Reachable t → ∀ u ∈ t.services, leaderCount u ≤ 1) := by
  constructor
  · obtain ⟨hc, hrep, _⟩ := deploy_ok h
    rw [leaderCount, hrep]
    apply leaderCount_assignRoles_of_ne_nil
    intro hnil
    have hlen := congrArg List.length hnil
    rw [List.length_take, (List.perm_insertionSort scoreOrder _).length_eq] at hlen
    simp only [List.length_nil] at hlen
    rcases Nat.min_eq_zero_iff.mp hlen with h0 | h0 <;> omega
  · intro t ht
    induction ht with
    | base => intro u hu; simp [dwsInit] at hu
    | next op hprev ih => exact at_most_one_leader_dwsStep _ op ih

/-- Concrete node used by the witness states. -/
def exNode : Node :=
  { nodeId := 1, capabilities := ["db"], availableCapacity := 10, health := Health.healthy }

/-- Concrete registry state holding one healthy db-capable node. -/
def exState : DWSState := { nodes := [exNode], services := [], records := [] }

/-- Concrete one-replica deployment request. -/
def exCfg : DeployConfig := { name := "svc.db", capability := "db", replicaCount := 1 }

/-- The service produced by deploying `exCfg` against `exState`. -/
def exSvc : StatefulService :=
  { name := "svc.db", replicaCount := 1, capability := "db",
    replicas := [{ nodeId := 1, role := ReplicaRole.leader, address := "node-1" }] }

/-- The state produced by deploying `exCfg` against `exState`. -/
def exState2 : DWSState :=
  { nodes := [exNode], services := [exSvc],
    records := [{ name := "svc.db",
                  endpoints := [{ address := "node-1", port := 4661, weight := 1,
                                  healthy := true, isLeader := true }],
                  metadata := [] }] }

/-- Witness for C2: the concrete one-node deployment has one leader. -/
theorem c2_exactly_one_leader_witness :
    (1 ≤ exCfg.replicaCount) ∧ leaderCount exSvc = 1 :=
  ⟨by decide,
   (c2_exactly_one_leader exCfg exState exState2 exSvc (by decide) (by rfl)).1⟩

/-- C4: for every registered node, `listByCapability(c)` returns the node
iff the tag is in its capability set and it is healthy, and the returned
list is deterministically ordered by nodeId. -/
theorem c4_listByCapability_spec (s : DWSState) (c : String) :
    (∀ n ∈ s.nodes,
      (n ∈ listByCapability c s ↔ (c ∈ n.capabilities ∧ n.health = Health.healthy))) ∧
    List.Sorted nodeIdLe (listByCapability c s) := by
  constructor
  · intro n hn
    rw [listByCapability, (List.perm_insertionSort nodeIdLe _).mem_iff, List.mem_filter]
    simp [hn]
  · exact List.sorted_insertionSort nodeIdLe _

/-- Witness for C4: the concrete registry returns its db-capable node. -/
theorem c4_listByCapability_spec_witness :
    exNode ∈ exState.nodes ∧
    (exNode ∈ listByCapability "db" exState ↔
      ("db" ∈ exNode.capabilities ∧ exNode.health = Health.healthy)) :=
  ⟨by decide, (c4_listByCapability_spec exState "db").1 exNode (by decide)⟩

/-- C5: `markEndpointHealthy` and `markEndpointUnhealthy` are idempotent,
and an endpoint marked unhealthy is excluded from every resolution call
(`resolveSRV`, `resolveLeader`, `resolveWithLoadBalancing`), while
`resolveA` only ever serves addresses of healthy endpoints. -/
theorem c5_mark_idempotent_and_exclusion :
    (∀ (s : DWSState) (name address : String) (port : Nat),
      markEndpointHealthy (markEndpointHealthy s name address port) name address port =
        markEndpointHealthy s name address port) ∧
    (∀ (s : DWSState) (name address : String) (port : Nat),
      markEndpointUnhealthy (markEndpointUnhealthy s name address port) name address port =
        markEndpointUnhealthy s name address port) ∧
    (∀ (s : DWSState) (name address : String) (port w : Nat),
      (address, port, w) ∉ resolveSRV (markEndpointUnhealthy s name address port) name) ∧
    (∀ (s : DWSState) (name address : String) (port : Nat) (e : ServiceEndpoint),
      resolveLeader (markEndpointUnhealthy s name address port) name = Except.ok e →
        ¬(e.address = address ∧ e.port = port)) ∧
    (∀ (s : DWSState) (name address : String) (port k : Nat) (e : ServiceEndpoint),
      resolveWithLoadBalancing (markEndpointUnhealthy s name address port) name k =
          Except.ok e →
        ¬(e.address = address ∧ e.port = port)) ∧
    (∀ (s : DWSState) (name a : String),
      a ∈ resolveA s name →
        ∃ rec e, getServiceByFqdn s name = some rec ∧ e ∈ rec.endpoints ∧
          e.healthy = true ∧ e.address = a) := by
  refine ⟨?_, ?_, ?_, ?_, ?_, ?_⟩
  · intro s name address port
    exact markEndpoint_idem true s name address port
  · intro s name address port
    exact markEndpoint_idem false s name address port
  · intro s name address port w hmem
    rw [resolveSRV] at hmem
    cases hfq : getServiceByFqdn (markEndpointUnhealthy s name address port) name with
    | none => rw [hfq] at hmem; cases hmem
    | some rec =>
      rw [hfq] at hmem
      obtain ⟨e, he, heq⟩ := List.mem_map.mp hmem
      have hae : e.address = address := congrArg Prod.fst heq
      have hpe : e.port = port := congrArg (fun p => p.2.1) heq
      exact healthy_mem_marked s name address port rec hfq e he ⟨hae, hpe⟩
  · intro s name address port e hok
    cases hfq : getServiceByFqdn (markEndpointUnhealthy s name address port) name with
    | none =>
      simp only [resolveLeader, hfq] at hok
      cases hok
    | some rec =>
      cases hfind : (healthyEndpoints rec).find? (fun e => e.isLeader) with
      | none =>
        simp only [resolveLeader, hfq, hfind] at hok
        cases hok
      | some e2 =>
        simp only [resolveLeader, hfq, hfind, Except.ok.injEq] at hok
        subst hok
        exact healthy_mem_marked s name address port rec hfq e2
          (List.mem_of_find?_eq_some hfind)
  · intro s name address port k e hok
    cases hfq : getServiceByFqdn (markEndpointUnhealthy s name address port) name with
    | none =>
      simp only [resolveWithLoadBalancing, hfq] at hok
      cases hok
    | some rec =>
      cases hget : (healthyEndpoints rec).get?
          (k % (healthyEndpoints rec).length) with
      | none =>
        simp only [resolveWithLoadBalancing, hfq, hget] at hok
        cases hok
      | some e2 =>
        simp only [resolveWithLoadBalancing, hfq, hget, Except.ok.injEq] at hok
        subst hok
        exact healthy_mem_marked s name address port rec hfq e2 (List.get?_mem hget)
  · intro s name a hmem
    rw [resolveA] at hmem
    cases hfq : getServiceByFqdn s name with
    | none => rw [hfq] at hmem; cases hmem
    | some rec =>
      rw [hfq] at hmem
      obtain ⟨e, he, heq⟩ := List.mem_map.mp hmem
      exact ⟨rec, e, rfl, (List.mem_filter.mp he).1,
        by simpa using (List.mem_filter.mp he).2, heq⟩

/-- Witness for C5: a concrete double mark equals a single mark, and the
concretely marked endpoint disappears from `resolveSRV`. -/
theorem c5_mark_idempotent_and_exclusion_witness :
    markEndpointHealthy (markEndpointHealthy exState2 "svc.db" "node-1" 4661)
        "svc.db" "node-1" 4661 =
      markEndpointHealthy exState2 "svc.db" "node-1" 4661 ∧
    ("node-1", 4661, 1) ∉
      resolveSRV (markEndpointUnhealthy exState2 "svc.db" "node-1" 4661) "svc.db" :=
  ⟨c5_mark_idempotent_and_exclusion.1 exState2 "svc.db" "node-1" 4661,
   c5_mark_idempotent_and_exclusion.2.2.1 exState2 "svc.db" "node-1" 4661 1⟩

/-- C6: immediately after a successful deploy, the service's FQDN owns
one registered `ServiceEndpoint` per replica (in replica order), and
`resolveSRV` on that name returns exactly the deployed endpoints as
(address, port, weight) triples. -/
theorem c6_deploy_resolveSRV_roundtrip
    (cfg : DeployConfig) (s s2 : DWSState) (svc : StatefulService)
    (h : deploy cfg s = Except.ok (s2, svc)) :
    (∃ rec, getServiceByFqdn s2 cfg.name = some rec ∧
      rec.endpoints = svc.replicas.map endpointOfReplica) ∧
    resolveSRV s2 cfg.name = svc.replicas.map (fun r => (r.address, servicePort, 1)) := by
  obtain ⟨_, _, _, _, _, _, _, hrecords⟩ := deploy_ok h
  have hfq : getServiceByFqdn s2 cfg.name =
      some { name := cfg.name, endpoints := svc.replicas.map endpointOfReplica,
             metadata := ([] : List (String × String)) } := by
    rw [getServiceByFqdn, hrecords]
    simp [List.find?]
  refine ⟨⟨_, hfq, rfl⟩, ?_⟩
  rw [resolveSRV, hfq]
  have hfil : (svc.replicas.map endpointOfReplica).filter (fun e => e.healthy) =
      svc.replicas.map endpointOfReplica := by
    apply List.filter_eq_self.mpr
    intro e he
    obtain ⟨r, _, rfl⟩ := List.mem_map.mp he
    rfl
  simp only [healthyEndpoints, hfil, List.map_map]
  exact List.map_congr_left (fun r _ => rfl)

/-- Witness for C6: the concrete deployment round-trips through
`resolveSRV`. -/
theorem c6_deploy_resolveSRV_roundtrip_witness :
    resolveSRV exState2 "svc.db" = [("node-1", 4661, 1)] := by
  have h := (c6_deploy_resolveSRV_roundtrip exCfg exState exState2 exSvc (by rfl)).2
  simpa using h

/-- C7 counterexample: in a record whose only endpoint is marked leader
but unhealthy, a leader is currently marked, yet `resolveLeader` fails
with `NoLeaderError` — resolution excludes unhealthy endpoints, so the
claim's "fails exactly when no leader is currently marked" is false. -/
theorem c7_counterexample_unhealthy_marked_leader :
    (∃ e ∈ (ServiceRecord.mk "svc"
        [{ address := "node-1", port := 4661, weight := 1,
           healthy := false, isLeader := true }] []).endpoints,
      e.isLeader = true) ∧
    getServiceByFqdn
        { nodes := [], services := [],
          records := [ServiceRecord.mk "svc"
            [{ address := "node-1", port := 4661, weight := 1,
               healthy := false, isLeader := true }] []] } "svc" =
      some (ServiceRecord.mk "svc"
        [{ address := "node-1", port := 4661, weight := 1,
           healthy := false, isLeader := true }] []) ∧
    resolveLeader
        { nodes := [], services := [],
          records := [ServiceRecord.mk "svc"
            [{ address := "node-1", port := 4661, weight := 1,
               healthy := false, isLeader := true }] []] } "svc" =
      Except.error DWSError.noLeader :=
  ⟨⟨{ address := "node-1", port := 4661, weight := 1,
      healthy := false, isLeader := true }, by decide, rfl⟩, by decide, rfl⟩

/-- C7 (amended): `resolveLeader(name)` returns a healthy endpoint
currently marked leader when one exists, and fails with `NoLeaderError`
exactly when no healthy endpoint of that name is currently marked
leader (an unhealthy marked leader counts as absent, per the
unhealthy-exclusion rule). -/
theorem c7_resolveLeader_healthy_leader (s : DWSState) (name : String) :
    (∀ rec, getServiceByFqdn s name = some rec →
      ((∃ e ∈ rec.endpoints, e.healthy = true ∧ e.isLeader = true) →
        ∃ e, resolveLeader s name = Except.ok e ∧ e.healthy = true ∧
          e.isLeader = true ∧ e ∈ rec.endpoints) ∧
      ((∀ e ∈ rec.endpoints, ¬(e.healthy = true ∧ e.isLeader = true)) →
        resolveLeader s name = Except.error DWSError.noLeader)) ∧
    (getServiceByFqdn s name = none →
      resolveLeader s name = Except.error DWSError.noLeader) := by
  constructor
  · intro rec hrec
    constructor
    · rintro ⟨e, he, hh, hl⟩
      have hmem : e ∈ healthyEndpoints rec := List.mem_filter.mpr ⟨he, by simp [hh]⟩
      have hsome : ((healthyEndpoints rec).find? (fun e => e.isLeader)).isSome := by
        rw [List.find?_isSome]
        exact ⟨e, hmem, hl⟩
      obtain ⟨e2, hfind⟩ := Option.isSome_iff_exists.mp hsome
      refine ⟨e2, ?_, ?_, List.find?_some hfind, ?_⟩
      · simp only [resolveLeader, hrec, hfind]
      · have := (List.mem_filter.mp (List.mem_of_find?_eq_some hfind)).2
        simpa using this
      · exact (List.mem_filter.mp (List.mem_of_find?_eq_some hfind)).1
    · intro hnone
      have hfind : (healthyEndpoints rec).find? (fun e => e.isLeader) = none := by
        rw [List.find?_eq_none]
        intro e he hl
        have hmem := (List.mem_filter.mp he).1
        have hh := (List.mem_filter.mp he).2
        exact hnone e hmem ⟨by simpa using hh, hl⟩
      simp only [resolveLeader, hrec, hfind]
  · intro hnone
    simp only [resolveLeader, hnone]

/-- Witness for C7 (amended): the concrete deployed record resolves its
healthy leader. -/
theorem c7_resolveLeader_healthy_leader_witness :
    ∃ e, resolveLeader exState2 "svc.db" = Except.ok e ∧ e.healthy = true ∧
      e.isLeader = true ∧
      e ∈ ({ address := "node-1", port := 4661, weight := 1, healthy := true,
             isLeader := true } : ServiceEndpoint) ::
        ([] : List ServiceEndpoint) := by
  have h := ((c7_resolveLeader_healthy_leader exState2 "svc.db").1
    { name := "svc.db",
      endpoints := [{ address := "node-1", port := 4661, weight := 1,
                      healthy := true, isLeader := true }],
      metadata := [] } (by decide)).1
    ⟨{ address := "node-1", port := 4661, weight := 1, healthy := true,
       isLeader := true }, by decide, rfl, rfl⟩
  simpa using h

end Jeju
